import Mathlib

/-!
Shallow embedding of the collaborative-canvas core of creative-canvas-ai
(frontend/src/components/CanvasEditor.tsx, frontend/src/services/api.ts,
frontend/src/hooks/useAuth.tsx, frontend/src/hooks/useSocket.ts), together
with proofs of the documented properties of its document reducer, undo/redo
history, broadcast pairing, auto-save debounce, token-refresh coordinator and
session lifecycle.
-/

namespace CreativeCanvas

/-- `interface CanvasObject` from CanvasEditor.tsx.  Numeric fields are JS
numbers, modelled as `Int`; every field but `id` and `type` is optional in the
source and is modelled with `Option`. -/
structure CanvasObject where
  id : String
  type : String
  x : Option Int := none
  y : Option Int := none
  points : Option (List Int) := none
  width : Option Int := none
  height : Option Int := none
  radius : Option Int := none
  text : Option String := none
  fontSize : Option Int := none
  fill : Option String := none
  stroke : Option String := none
  strokeWidth : Option Int := none
  rotation : Option Int := none
  scaleX : Option Int := none
  scaleY : Option Int := none
  imageSrc : Option String := none
  deriving Repr, DecidableEq

/-- Payload of a `canvas_update` protocol message, the argument of
`handleCanvasUpdate` in CanvasEditor.tsx:
`{ action: string; object?: CanvasObject; objectId?: string }`. -/
structure CanvasUpdateData where
  action : String
  object : Option CanvasObject := none
  objectId : Option String := none
  deriving Repr, DecidableEq

/-- The remote-message reducer `handleCanvasUpdate` from CanvasEditor.tsx
(registered on `socket.on('canvas_update', ...)`).  The source checks
`data.action === 'add' && data.object` and `data.action === 'delete' &&
data.objectId`; it has no branch for any other action value. -/
def handleCanvasUpdate (data : CanvasUpdateData) (prev : List CanvasObject) :
    List CanvasObject :=
  if data.action = "add" then
    match data.object with
    | some o =>
        if prev.any fun obj => obj.id == o.id then prev
        else prev ++ [o]
    | none => prev
  else if data.action = "delete" then
    match data.objectId with
    | some oid => prev.filter fun obj => obj.id != oid
    | none => prev
  else
    prev

/-- The editor's synchronisation-relevant React state: `objects`, `history`
and `historyStep` from CanvasEditor.tsx.  `historyStep` starts at `-1`, so it
is an `Int`. -/
structure EditorState where
  objects : List CanvasObject
  history : List (List CanvasObject)
  historyStep : Int
  deriving Repr, DecidableEq

/-- The initial React state: `objects = []`, `history = []`,
`historyStep = -1`. -/
def initialEditorState : EditorState :=
  { objects := [], history := [], historyStep := -1 }

/-- `saveToHistory(newObjects)` from CanvasEditor.tsx:
`newHistory = history.slice(0, historyStep + 1)`, push a deep copy of
`newObjects`, set `historyStep = newHistory.length - 1`.  A deep copy of an
immutable value is the value itself in this pure model. -/
def saveToHistory (s : EditorState) (newObjects : List CanvasObject) :
    EditorState :=
  let newHistory := s.history.take (s.historyStep + 1).toNat ++ [newObjects]
  { s with history := newHistory,
           historyStep := (newHistory.length : Int) - 1 }

/-- The local-mutation pattern used by every user-action handler in
CanvasEditor.tsx: `setObjects(updated); saveToHistory(updated)`. -/
def applyLocal (newObjects : List CanvasObject) (s : EditorState) :
    EditorState :=
  saveToHistory { s with objects := newObjects } newObjects

/-- A sequence of local mutations applied in order. -/
def applyLocals (us : List (List CanvasObject)) (s : EditorState) :
    EditorState :=
  us.foldl (fun t u => applyLocal u t) s

/-- `loadCanvas` success path from CanvasEditor.tsx: on mount,
`setObjects(loadedObjects); saveToHistory(loadedObjects)` starting from the
initial React state. -/
def loadCanvas (loaded : List CanvasObject) : EditorState :=
  applyLocal loaded initialEditorState

/-- `handleUndo` from CanvasEditor.tsx: if `historyStep > 0`, decrement the
cursor and replace `objects` with a deep copy of `history[historyStep - 1]`;
otherwise do nothing. -/
def handleUndo (s : EditorState) : EditorState :=
  if s.historyStep > 0 then
    { s with historyStep := s.historyStep - 1,
             objects := s.history.getD (s.historyStep - 1).toNat [] }
  else s

/-- `handleRedo` from CanvasEditor.tsx: if `historyStep < history.length - 1`,
increment the cursor and replace `objects` with a deep copy of
`history[historyStep + 1]`; otherwise do nothing. -/
def handleRedo (s : EditorState) : EditorState :=
  if s.historyStep < (s.history.length : Int) - 1 then
    { s with historyStep := s.historyStep + 1,
             objects := s.history.getD (s.historyStep + 1).toNat [] }
  else s

/-- `n` consecutive `handleUndo` calls. -/
def undoN : Nat → EditorState → EditorState
  | 0, s => s
  | n + 1, s => undoN n (handleUndo s)

/-- `n` consecutive `handleRedo` calls. -/
def redoN : Nat → EditorState → EditorState
  | 0, s => s
  | n + 1, s => redoN n (handleRedo s)

/-- Applying a remote `canvas_update` message: the socket handler in
CanvasEditor.tsx calls only `setObjects`; it touches neither `history` nor
`historyStep`. -/
def applyRemote (data : CanvasUpdateData) (s : EditorState) : EditorState :=
  { s with objects := handleCanvasUpdate data s.objects }

/-! ## Outbound broadcasts

`broadcastUpdate(action, object?, objectId?)` in CanvasEditor.tsx emits one
`canvas_update` socket message.  Each user-action handler is modelled as a
function returning the new editor state together with the list of messages it
emits, in emission order. -/

/-- The payload `broadcastUpdate` sends inside `canvas_update`. -/
structure OutboundMessage where
  action : String
  object : Option CanvasObject := none
  objectId : Option String := none
  deriving Repr, DecidableEq

/-- The rect branch of `handleMouseDown` in CanvasEditor.tsx: build `newRect`,
`setObjects(updated); saveToHistory(updated); broadcastUpdate('add', newRect)`. -/
def addRectAt (id : String) (posX posY : Int) (fillColor strokeColor : String)
    (sw : Int) (s : EditorState) : EditorState × List OutboundMessage :=
  let newRect : CanvasObject :=
    { id := id, type := "rect", x := some posX, y := some posY,
      width := some 100, height := some 100, fill := some fillColor,
      stroke := some strokeColor, strokeWidth := some sw }
  let updated := s.objects ++ [newRect]
  (applyLocal updated s, [{ action := "add", object := some newRect }])

/-- `handleDelete` in CanvasEditor.tsx: filter out the selected ids,
`setObjects; saveToHistory;` then one `broadcastUpdate('delete', undefined, id)`
per selected id. -/
def handleDelete (selectedIds : List String) (s : EditorState) :
    EditorState × List OutboundMessage :=
  if selectedIds.length = 0 then (s, [])
  else
    let updated := s.objects.filter fun obj => !(selectedIds.contains obj.id)
    (applyLocal updated s,
     selectedIds.map fun id => { action := "delete", objectId := some id })

/-- `handlePaste` in CanvasEditor.tsx: clone the clipboard with fresh ids
(`type-Date.now()-Math.random()`, modelled by `freshIds` per clipboard index)
and a (+20, +20) offset, then `setObjects(updated); saveToHistory(updated);
setSelectedIds(...)`.  The source emits no broadcast here. -/
def handlePaste (freshIds : Nat → String) (clipboard : List CanvasObject)
    (s : EditorState) : EditorState × List OutboundMessage :=
  if clipboard.length = 0 then (s, [])
  else
    let newObjects := clipboard.enum.map fun p =>
      { p.2 with id := freshIds p.1,
                 x := some (p.2.x.getD 0 + 20),
                 y := some (p.2.y.getD 0 + 20) }
    let updated := s.objects ++ newObjects
    (applyLocal updated s, [])

/-- The Konva node attributes read by `handleTransformEnd`. -/
structure TransformNode where
  id : String
  x : Int
  y : Int
  rotation : Int
  scaleX : Int
  scaleY : Int
  width : Int
  height : Int
  deriving Repr, DecidableEq

/-- `handleTransformEnd` in CanvasEditor.tsx: map the object of the node's id
to its new geometry, then `setObjects(updated); saveToHistory(updated)`.  The
source emits no broadcast here. -/
def handleTransformEnd (node : TransformNode) (s : EditorState) :
    EditorState × List OutboundMessage :=
  let updated := s.objects.map fun obj =>
    if obj.id == node.id then
      { obj with
          x := some node.x, y := some node.y, rotation := some node.rotation,
          scaleX := some node.scaleX, scaleY := some node.scaleY,
          width := if obj.type = "rect" then some (node.width * node.scaleX)
                   else obj.width,
          height := if obj.type = "rect" then some (node.height * node.scaleY)
                    else obj.height,
          radius := if obj.type = "circle" then obj.radius.map (· * node.scaleX)
                    else obj.radius }
    else obj
  (applyLocal updated s, [])

/-! ## Auto-save debounce

The auto-save `useEffect` in CanvasEditor.tsx depends on `objects`: every
change clears the previous 2000 ms timeout (effect cleanup) and arms a new
one; when a timeout survives, `saveCanvas` persists the `objects` captured at
arming time. -/

/-- The debounce delay of the auto-save effect, in milliseconds. -/
def autoSaveDebounceMs : Nat := 2000

/-- The saves produced by a sequence of `objects` changes, given as
`(time in ms, document)` pairs in increasing time order.  A timer armed at
`t` fires at `t + 2000` unless a later change occurs before that deadline,
in which case the effect cleanup cancels it. -/
def debounceSaves : List (Nat × List CanvasObject) → List (Nat × List CanvasObject)
  | [] => []
  | [(t, d)] => [(t + autoSaveDebounceMs, d)]
  | (t, d) :: (t₂, d₂) :: rest =>
      if t + autoSaveDebounceMs ≤ t₂ then
        (t + autoSaveDebounceMs, d) :: debounceSaves ((t₂, d₂) :: rest)
      else
        debounceSaves ((t₂, d₂) :: rest)

/-! ## HTTP client refresh coordinator (services/api.ts)

The response interceptor of `apiClient` together with the module-level
`isRefreshing` flag, `failedQueue`, and `processQueue`.  Requests are
identified by numbers; the single-threaded event loop processes 401 failures
one at a time, and an in-flight refresh settles later as one event. -/

/-- The final disposition of an HTTP request that hit a 401. -/
inductive ReqOutcome
  | pending
  | rejectedOriginal
  | rejectedRefresh
  | retriedWith (token : String)
  deriving Repr, DecidableEq

/-- Module state of api.ts plus the relevant localStorage keys and the window
events dispatched so far.  `outcomes` records each request's disposition;
`inflightFor` is the request whose interceptor run started the in-flight
refresh (its continuation resumes when the awaited refresh settles). -/
structure ApiClientState where
  isRefreshing : Bool
  failedQueue : List Nat
  token : Option String
  refreshTokenVal : Option String
  guestSession : Bool
  refreshCalls : Nat
  inflightFor : Option Nat
  dispatchedEvents : List String
  outcomes : Nat → ReqOutcome

/-- The 401 branch of the response interceptor in api.ts, for a request that
has not been retried yet (`!originalRequest._retry`), run to its first
suspension point:
- guest short-circuit: `guest_session` present and no `token` stored rejects
  the original error;
- `isRefreshing` queues `{resolve, reject}` onto `failedQueue`;
- otherwise set `_retry` and `isRefreshing = true`; with no `refresh_token`
  clear both tokens, navigate to `/` and reject (note: `isRefreshing` is never
  reset on this path, as the `finally` covers only the `try` block); with a
  `refresh_token` issue the single network refresh call. -/
def handle401 (s : ApiClientState) (reqId : Nat) : ApiClientState :=
  if s.guestSession && s.token.isNone then
    { s with outcomes := fun j => if j = reqId then .rejectedOriginal else s.outcomes j }
  else if s.isRefreshing then
    { s with failedQueue := s.failedQueue ++ [reqId] }
  else
    match s.refreshTokenVal with
    | none =>
        { s with isRefreshing := true, token := none, refreshTokenVal := none,
                 outcomes := fun j => if j = reqId then .rejectedOriginal else s.outcomes j }
    | some _ =>
        { s with isRefreshing := true, refreshCalls := s.refreshCalls + 1,
                 inflightFor := some reqId }

/-- A batch of 401 failures processed in order by the event loop. -/
def processFailures (s : ApiClientState) (reqs : List Nat) : ApiClientState :=
  reqs.foldl handle401 s

/-- Result of the awaited `POST /auth/refresh`. -/
inductive RefreshResult
  | success (accessToken : String)
  | failure
  deriving Repr, DecidableEq

/-- Settling of the in-flight refresh in api.ts.  On success: store the new
token, dispatch `tokenRefreshed`, `processQueue(null, access_token)` resolves
every waiter (whose continuation retries its request with the new token), and
the initiating request is retried; `finally` clears `isRefreshing`.  On
failure: `processQueue(refreshError, null)` rejects every waiter, both tokens
are removed, navigation to `/`, the initiating request is rejected, and
`finally` clears `isRefreshing`. -/
def settleRefresh (s : ApiClientState) (r : RefreshResult) : ApiClientState :=
  match r with
  | .success tok =>
      { s with token := some tok,
               dispatchedEvents := s.dispatchedEvents ++ ["tokenRefreshed"],
               outcomes := fun j =>
                 if j ∈ s.failedQueue ∨ s.inflightFor = some j then
                   .retriedWith tok
                 else s.outcomes j,
               failedQueue := [],
               inflightFor := none,
               isRefreshing := false }
  | .failure =>
      { s with token := none, refreshTokenVal := none,
               outcomes := fun j =>
                 if j ∈ s.failedQueue ∨ s.inflightFor = some j then
                   .rejectedRefresh
                 else s.outcomes j,
               failedQueue := [],
               inflightFor := none,
               isRefreshing := false }

/-! ## Transport reconnect on token rotation (hooks/useSocket.ts)

`useSocket` registers two listeners: a `storage` listener (the HTML storage
event is delivered only to OTHER same-origin documents, never to the document
that performed the write) and a `tokenRefreshed` listener for the custom event
dispatched by api.ts.  Both read the fresh token, set `socket.auth` and
disconnect+reconnect.  A step of the session lifecycle is modelled as a state
transformer that also reports the window events it dispatches in its own
document; delivering those events runs the `tokenRefreshed` listener. -/

/-- The socket's credential and connection counter. -/
structure SocketState where
  authToken : Option String
  connectCount : Nat
  deriving Repr, DecidableEq

/-- One browser tab: localStorage keys plus the socket of the open editor. -/
structure BrowserTab where
  token : Option String
  refreshTokenVal : Option String
  socket : SocketState
  deriving Repr, DecidableEq

/-- `handleTokenRefresh` in useSocket.ts: read the stored token and, if
present, update `socket.auth` and disconnect+reconnect. -/
def handleTokenRefresh (tab : BrowserTab) : BrowserTab :=
  match tab.token with
  | some newToken =>
      { tab with socket := { authToken := some newToken,
                             connectCount := tab.socket.connectCount + 1 } }
  | none => tab

/-- Deliver the window events dispatched by a step to the same-document
listeners; only `tokenRefreshed` has a registered handler relevant here
(same-document localStorage writes produce no `storage` event). -/
def deliverEvents (evts : List String) (tab : BrowserTab) : BrowserTab :=
  evts.foldl (fun t e => if e = "tokenRefreshed" then handleTokenRefresh t else t) tab

/-- One tick of the proactive-renewal interval in useAuth.tsx
(`refreshToken`): with both tokens present, decode the access token's `exp`
(milliseconds; `decodeExpMs` abstracts `JSON.parse(atob(...)).exp * 1000`,
returning `none` when decoding throws); if less than 5 minutes remain, call
`POST /auth/refresh` (yielding `freshToken`) and `localStorage.setItem('token',
access_token)`.  The source dispatches no window event on this path. -/
def proactiveRefreshTick (decodeExpMs : String → Option Int) (nowMs : Int)
    (freshToken : String) (tab : BrowserTab) : BrowserTab × List String :=
  match tab.token, tab.refreshTokenVal with
  | some tok, some _ =>
      match decodeExpMs tok with
      | some expMs =>
          if expMs - nowMs < 5 * 60 * 1000 then
            ({ tab with token := some freshToken }, [])
          else (tab, [])
      | none => (tab, [])
  | _, _ => (tab, [])

/-- The token-storing tail of the reactive refresh success path in api.ts:
`localStorage.setItem('token', access_token)` followed by
`window.dispatchEvent(new Event('tokenRefreshed'))`. -/
def reactiveRefreshStore (freshToken : String) (tab : BrowserTab) :
    BrowserTab × List String :=
  ({ tab with token := some freshToken }, ["tokenRefreshed"])

/-- Run a lifecycle step and deliver the events it dispatched to this
document's listeners. -/
def runStep (step : BrowserTab → BrowserTab × List String) (tab : BrowserTab) :
    BrowserTab :=
  let p := step tab
  deliverEvents p.2 p.1

/-! ## Session login (hooks/useAuth.tsx) -/

/-- `UserInfo` from useAuth.tsx. -/
structure UserInfo where
  email : Option String := none
  name : Option String := none
  avatarUrl : Option String := none
  deriving Repr, DecidableEq

/-- The auth-relevant localStorage keys and React state of `AuthProvider`. -/
structure AuthState where
  token : Option String
  guestSession : Option String
  canvasGuestDraft : Option String
  clientProjectKey : Option String
  guestProjectMap : Option String
  isAuthenticated : Bool
  currentUser : Option UserInfo
  deriving Repr, DecidableEq

/-- `login(token)` from useAuth.tsx, up to its synchronous end:
`localStorage.setItem('token', token)`; clear the four guest-mode keys (inside
try/catch); decode the JWT payload inside try/catch — `decodePayload`
abstracts `JSON.parse(atob(token.split('.')[1]))` and the field projection,
returning `none` when any step throws — setting `currentUser` from it or to
`null` on failure; finally `setIsAuthenticated(true)`.  The best-effort async
`/auth/me` fetch happens after login returns and is not part of this step. -/
def login (decodePayload : String → Option UserInfo) (tok : String)
    (s : AuthState) : AuthState :=
  let s₁ := { s with token := some tok }
  let s₂ := { s₁ with guestSession := none, canvasGuestDraft := none,
                      clientProjectKey := none, guestProjectMap := none }
  let s₃ :=
    match decodePayload tok with
    | some u => { s₂ with currentUser := some u }
    | none => { s₂ with currentUser := none }
  { s₃ with isAuthenticated := true }

/-! ## Concrete fixtures -/

/-- A circle object, id `circle-1`, as first created. -/
def circleV1 : CanvasObject :=
  { id := "circle-1", type := "circle", x := some 10, y := some 10,
    radius := some 50, fill := some "#000000", stroke := some "#000000",
    strokeWidth := some 2 }

/-- A concurrent edit of `circle-1`: same id, different geometry and paint. -/
def circleV2 : CanvasObject :=
  { id := "circle-1", type := "circle", x := some 99, y := some 42,
    radius := some 75, fill := some "#ff0000", stroke := some "#000000",
    strokeWidth := some 2 }

/-- A rect object used as clipboard/selection content. -/
def pasteClip : CanvasObject :=
  { id := "rect-1", type := "rect", x := some 5, y := some 6,
    width := some 100, height := some 100, fill := some "#000000" }

/-- An editor that has loaded a one-object document. -/
def sampleEditorState : EditorState := loadCanvas [pasteClip]

/-- A finished Konva transform of `rect-1`. -/
def sampleNode : TransformNode :=
  { id := "rect-1", x := 50, y := 60, rotation := 15, scaleX := 2, scaleY := 3,
    width := 100, height := 100 }

/-- An authenticated api.ts module state with no failure processed yet. -/
def freshApiState : ApiClientState :=
  { isRefreshing := false, failedQueue := [], token := some "acc0",
    refreshTokenVal := some "ref0", guestSession := false, refreshCalls := 0,
    inflightFor := none, dispatchedEvents := [], outcomes := fun _ => .pending }

/-- A guest api.ts module state: `guest_session` present, no `token`. -/
def guestApiState : ApiClientState :=
  { isRefreshing := false, failedQueue := [], token := none,
    refreshTokenVal := none, guestSession := true, refreshCalls := 0,
    inflightFor := none, dispatchedEvents := [], outcomes := fun _ => .pending }

/-- A tab whose socket authenticated with a token that is about to expire. -/
def staleSocketTab : BrowserTab :=
  { token := some "oldToken", refreshTokenVal := some "refresh1",
    socket := { authToken := some "oldToken", connectCount := 1 } }

/-- Payload decoding for the fixture token: `oldToken` expires at 1000000 ms. -/
def decodeExpOld : String → Option Int :=
  fun t => if t = "oldToken" then some 1000000 else none

end CreativeCanvas

namespace CreativeCanvas

/-! ## Theorems -/

/-- C1: the claim says a remote `canvas_update / edit` for an id present in
the Document replaces that object wholesale.  The code refutes it: the reducer
`handleCanvasUpdate` has branches only for `add` and `delete`, so an `edit`
message for the existing `circle-1` leaves the Document unchanged instead of
replacing the object. -/
theorem edit_message_is_dropped_by_reducer :
    handleCanvasUpdate { action := "edit", object := some circleV2 } [circleV1]
      = [circleV1] ∧
    circleV1 ≠ circleV2 := by
  exact ⟨rfl, by decide⟩

/-- C3: applying the same remote `add` message twice yields the Document of
applying it once; an `add` whose object id already exists leaves the Document
unchanged, otherwise the object is appended. -/
theorem remote_add_idempotent (data : CanvasUpdateData)
    (doc : List CanvasObject) (hact : data.action = "add") :
    handleCanvasUpdate data (handleCanvasUpdate data doc)
      = handleCanvasUpdate data doc ∧
    ∀ o, data.object = some o →
      ((doc.any fun obj => obj.id == o.id) = true →
        handleCanvasUpdate data doc = doc) ∧
      ((doc.any fun obj => obj.id == o.id) = false →
        handleCanvasUpdate data doc = doc ++ [o]) := by
  cases hobj : data.object with
  | none => simp [handleCanvasUpdate, hact, hobj]
  | some o =>
    by_cases hany : (doc.any fun obj => obj.id == o.id) = true
    · simp [handleCanvasUpdate, hact, hobj, hany]
      simpa using hany
    · simp [handleCanvasUpdate, hact, hobj, hany, List.any_append]
      simpa using hany

/-- C3 witness: a concrete `add` applied twice to the empty Document. -/
theorem remote_add_idempotent_witness :
    handleCanvasUpdate { action := "add", object := some circleV1 }
        (handleCanvasUpdate { action := "add", object := some circleV1 } [])
      = handleCanvasUpdate { action := "add", object := some circleV1 } [] :=
  (remote_add_idempotent { action := "add", object := some circleV1 } [] rfl).1

/-- C7: applying any remote `canvas_update` message changes only `objects`:
the History sequence and its cursor are untouched, so undo continues to revert
only the local author's own mutations. -/
theorem remote_apply_preserves_history (data : CanvasUpdateData)
    (s : EditorState) :
    (applyRemote data s).history = s.history ∧
    (applyRemote data s).historyStep = s.historyStep :=
  ⟨rfl, rfl⟩

/-- C9: a 401 while a guest session exists and no access token is stored makes
no refresh call and rejects the original error to the caller, leaving the rest
of the module state unchanged. -/
theorem guest_short_circuit (s : ApiClientState) (i : Nat)
    (hg : s.guestSession = true) (ht : s.token = none) :
    handle401 s i =
      { s with outcomes := fun j =>
          if j = i then .rejectedOriginal else s.outcomes j } ∧
    (handle401 s i).refreshCalls = s.refreshCalls ∧
    (handle401 s i).outcomes i = .rejectedOriginal := by
  have hguard : (s.guestSession && s.token.isNone) = true := by
    rw [hg, ht]; rfl
  refine ⟨?_, ?_, ?_⟩ <;> simp [handle401, hguard]

/-- C9 witness: the concrete guest state, request 7. -/
theorem guest_short_circuit_witness :
    (handle401 guestApiState 7).refreshCalls = 0 ∧
    (handle401 guestApiState 7).outcomes 7 = .rejectedOriginal := by
  have h := guest_short_circuit guestApiState 7 rfl rfl
  exact ⟨h.2.1, h.2.2⟩

/-- C10: `login` is a total step: for every token string and every outcome of
payload decoding it stores the token, clears the four guest-mode keys, marks
the session authenticated, and sets the current user to exactly the decode
result — so a decode failure only nulls the profile and rolls nothing back. -/
theorem login_total_stores_and_marks (decodePayload : String → Option UserInfo)
    (tok : String) (s : AuthState) :
    (login decodePayload tok s).token = some tok ∧
    (login decodePayload tok s).guestSession = none ∧
    (login decodePayload tok s).canvasGuestDraft = none ∧
    (login decodePayload tok s).clientProjectKey = none ∧
    (login decodePayload tok s).guestProjectMap = none ∧
    (login decodePayload tok s).isAuthenticated = true ∧
    (login decodePayload tok s).currentUser = decodePayload tok := by
  cases h : decodePayload tok <;> simp [login, h]

/-- C5: the claim says the transport observes the rotation produced by
proactive renewal and reconnects.  The code refutes it in the standard
single-document case: the proactive tick stores the refreshed token but
dispatches no `tokenRefreshed` event (unlike the reactive path in api.ts), and
a same-document localStorage write fires no `storage` event, so the socket
keeps the old credential and never reconnects. -/
theorem proactive_refresh_does_not_reconnect :
    (runStep (proactiveRefreshTick decodeExpOld 900000 "newToken")
        staleSocketTab).token = some "newToken" ∧
    (runStep (proactiveRefreshTick decodeExpOld 900000 "newToken")
        staleSocketTab).socket.authToken = some "oldToken" ∧
    (runStep (proactiveRefreshTick decodeExpOld 900000 "newToken")
        staleSocketTab).socket.connectCount = staleSocketTab.socket.connectCount :=
  ⟨by decide, by decide, by decide⟩

/-- The reactive refresh path of api.ts, by contrast, does dispatch
`tokenRefreshed`, and the socket listener then reconnects with the new token:
this is the mechanism the proactive path fails to trigger. -/
theorem reactive_refresh_reconnects :
    (runStep (reactiveRefreshStore "newToken") staleSocketTab).socket.authToken
      = some "newToken" ∧
    (runStep (reactiveRefreshStore "newToken") staleSocketTab).socket.connectCount
      = staleSocketTab.socket.connectCount + 1 :=
  ⟨rfl, rfl⟩

/-- C6: the claim says every direct-user-action mutation emits exactly one
outbound message after the Document update and History push.  The code refutes
it: `handlePaste` and `handleTransformEnd` mutate the Document and push a
History snapshot yet emit no message at all. -/
theorem paste_and_transform_broadcast_nothing :
    ((handlePaste (fun _ => "rect-77-0") [pasteClip] sampleEditorState).2 = []
      ∧ (handlePaste (fun _ => "rect-77-0") [pasteClip] sampleEditorState).1.objects
          ≠ sampleEditorState.objects
      ∧ (handlePaste (fun _ => "rect-77-0") [pasteClip] sampleEditorState).1.history
          ≠ sampleEditorState.history) ∧
    ((handleTransformEnd sampleNode sampleEditorState).2 = []
      ∧ (handleTransformEnd sampleNode sampleEditorState).1.objects
          ≠ sampleEditorState.objects) := by
  exact ⟨⟨rfl, by decide, by decide⟩, ⟨rfl, by decide⟩⟩

/-- The broadcasting pattern the spec describes does hold for the shape tools
and deletion: adding a rect emits exactly one `add` message and deleting ids
emits one `delete` per id, each after the Document update and History push. -/
theorem add_and_delete_do_broadcast (s : EditorState) (id : String)
    (posX posY : Int) (f st : String) (sw : Int) :
    (addRectAt id posX posY f st sw s).2.length = 1 ∧
    ∀ ids, ids ≠ [] →
      (handleDelete ids s).2.length = ids.length := by
  refine ⟨rfl, ?_⟩
  intro ids hne
  have hlen : ids.length ≠ 0 := by
    simpa using fun h => hne (List.length_eq_zero.mp h)
  simp [handleDelete, hlen]

/-- Once a refresh is in flight and an access token is stored, every further
401 just appends its continuation to `failedQueue`. -/
theorem processFailures_queues (l : List Nat) :
    ∀ (t : ApiClientState) (a : String),
    t.isRefreshing = true → t.token = some a →
    processFailures t l = { t with failedQueue := t.failedQueue ++ l } := by
  induction l with
  | nil => intro t a _ _; simp [processFailures]
  | cons i l ih =>
    intro t a href htok
    have hstep : handle401 t i = { t with failedQueue := t.failedQueue ++ [i] } := by
      simp [handle401, htok, href]
    show processFailures (handle401 t i) l = _
    rw [hstep, ih { t with failedQueue := t.failedQueue ++ [i] } a href htok]
    simp

/-- Unfolding of the success branch of `settleRefresh` at one request. -/
theorem settleRefresh_success_outcomes (s : ApiClientState) (tok : String)
    (j : Nat) :
    (settleRefresh s (.success tok)).outcomes j
      = if j ∈ s.failedQueue ∨ s.inflightFor = some j then .retriedWith tok
        else s.outcomes j := rfl

/-- Unfolding of the failure branch of `settleRefresh` at one request. -/
theorem settleRefresh_failure_outcomes (s : ApiClientState) (j : Nat) :
    (settleRefresh s .failure).outcomes j
      = if j ∈ s.failedQueue ∨ s.inflightFor = some j then .rejectedRefresh
        else s.outcomes j := rfl

/-- C2: starting from an idle authenticated client, a batch of concurrent 401
failures makes exactly one refresh network call (the `isRefreshing` flag stops
the others), queues the remaining continuations as waiters, and when the
refresh settles: on success the new token is stored and broadcast and every
failing call is retried with it; on failure every call is rejected and the
credential is cleared. -/
theorem single_flight_refresh (a r : String) (s0 : ApiClientState)
    (i : Nat) (rest : List Nat)
    (href : s0.isRefreshing = false) (htok : s0.token = some a)
    (hrt : s0.refreshTokenVal = some r) (hq : s0.failedQueue = [])
    (hc : s0.refreshCalls = 0) :
    (processFailures s0 (i :: rest)).refreshCalls = 1 ∧
    (processFailures s0 (i :: rest)).failedQueue = rest ∧
    (processFailures s0 (i :: rest)).isRefreshing = true ∧
    (∀ tok : String,
      (settleRefresh (processFailures s0 (i :: rest)) (.success tok)).token
          = some tok ∧
      "tokenRefreshed" ∈
        (settleRefresh (processFailures s0 (i :: rest)) (.success tok)).dispatchedEvents ∧
      ∀ j, (j = i ∨ j ∈ rest) →
        (settleRefresh (processFailures s0 (i :: rest)) (.success tok)).outcomes j
          = .retriedWith tok) ∧
    ((settleRefresh (processFailures s0 (i :: rest)) .failure).token = none ∧
     (settleRefresh (processFailures s0 (i :: rest)) .failure).refreshTokenVal = none ∧
     ∀ j, (j = i ∨ j ∈ rest) →
       (settleRefresh (processFailures s0 (i :: rest)) .failure).outcomes j
         = .rejectedRefresh) := by
  have hstep : handle401 s0 i
      = { s0 with isRefreshing := true, refreshCalls := s0.refreshCalls + 1,
                  inflightFor := some i } := by
    simp [handle401, htok, href, hrt]
  have hrun : processFailures s0 (i :: rest)
      = { s0 with isRefreshing := true, refreshCalls := s0.refreshCalls + 1,
                  inflightFor := some i, failedQueue := s0.failedQueue ++ rest } := by
    show processFailures (handle401 s0 i) rest = _
    rw [hstep, processFailures_queues rest
      { s0 with isRefreshing := true, refreshCalls := s0.refreshCalls + 1,
                inflightFor := some i } a rfl htok]
  rw [hrun]
  refine ⟨by simp [hc], by simp [hq], rfl, ?_, ?_⟩
  · intro tok
    refine ⟨rfl, by simp [settleRefresh], ?_⟩
    intro j hj
    rw [settleRefresh_success_outcomes, if_pos]
    rcases hj with h | h
    · exact Or.inr (by rw [h])
    · exact Or.inl (by simp [hq, h])
  · refine ⟨rfl, rfl, ?_⟩
    intro j hj
    rw [settleRefresh_failure_outcomes, if_pos]
    rcases hj with h | h
    · exact Or.inr (by rw [h])
    · exact Or.inl (by simp [hq, h])

/-- C2 witness: three concurrent failures, requests 0, 1, 2. -/
theorem single_flight_refresh_witness :
    (processFailures freshApiState [0, 1, 2]).refreshCalls = 1 ∧
    (processFailures freshApiState [0, 1, 2]).failedQueue = [1, 2] ∧
    (settleRefresh (processFailures freshApiState [0, 1, 2])
        (.success "acc1")).outcomes 2 = .retriedWith "acc1" ∧
    (settleRefresh (processFailures freshApiState [0, 1, 2]) .failure).token
      = none := by
  have h := single_flight_refresh "acc0" "ref0" freshApiState 0 [1, 2]
      rfl rfl rfl rfl rfl
  exact ⟨h.1, h.2.1, (h.2.2.2.1 "acc1").2.2 2 (Or.inr (by simp)),
         h.2.2.2.2.1⟩

/-- C8: a burst of `M ≥ 1` Document mutations whose consecutive gaps are all
below the 2000 ms debounce window produces exactly one persisted save, fired
2000 ms after the last mutation and containing the Document state after that
last mutation. -/
theorem debounce_burst_single_save (x : Nat × List CanvasObject)
    (rest : List (Nat × List CanvasObject))
    (hburst : List.Chain' (fun a b => b.1 < a.1 + autoSaveDebounceMs)
      (x :: rest)) :
    debounceSaves (x :: rest)
      = [((rest.getLastD x).1 + autoSaveDebounceMs, (rest.getLastD x).2)] := by
  induction rest generalizing x with
  | nil =>
    obtain ⟨t, d⟩ := x
    simp [debounceSaves]
  | cons y rest ih =>
    obtain ⟨t, d⟩ := x
    obtain ⟨t₂, d₂⟩ := y
    rw [List.chain'_cons] at hburst
    have hcancel : ¬ (t + autoSaveDebounceMs ≤ t₂) := by
      have := hburst.1
      omega
    simp only [debounceSaves]
    rw [if_neg hcancel, ih (t₂, d₂) hburst.2, List.getLastD_cons]

/-- C8 witness: three mutations at 0, 1000 and 1900 ms coalesce into the one
save at 3900 ms holding the last state. -/
theorem debounce_burst_single_save_witness :
    debounceSaves [(0, ([] : List CanvasObject)), (1000, [pasteClip]),
        (1900, [circleV1])]
      = [(3900, [circleV1])] := by
  have h := debounce_burst_single_save (0, ([] : List CanvasObject))
      [(1000, [pasteClip]), (1900, [circleV1])]
      (by simp [List.chain'_cons, autoSaveDebounceMs])
  simpa using h

/-- A local mutation on a state whose cursor points at the top of History
appends the snapshot and moves the cursor to it. -/
theorem applyLocal_at_top (u o : List CanvasObject)
    (h : List (List CanvasObject)) :
    applyLocal u { objects := o, history := h,
                   historyStep := (h.length : Int) - 1 }
      = { objects := u, history := h ++ [u],
          historyStep := (h.length : Int) } := by
  have h1 : (((h.length : Int) - 1) + 1).toNat = h.length := by omega
  simp [applyLocal, saveToHistory, h1]

/-- A run of local mutations from a top-of-history state appends all the
snapshots in order; the final document is the last mutation (or the starting
document when there is none). -/
theorem applyLocals_from_top (us : List (List CanvasObject)) :
    ∀ (o : List CanvasObject) (h : List (List CanvasObject)),
    applyLocals us { objects := o, history := h,
                     historyStep := (h.length : Int) - 1 }
      = { objects := us.getLastD o, history := h ++ us,
          historyStep := ((h.length + us.length : Nat) : Int) - 1 } := by
  induction us with
  | nil => intro o h; simp [applyLocals]
  | cons u us ih =>
    intro o h
    show applyLocals us (applyLocal u
      { objects := o, history := h, historyStep := (h.length : Int) - 1 }) = _
    rw [applyLocal_at_top]
    have hlen : (h.length : Int) = (((h ++ [u]).length : Nat) : Int) - 1 := by
      simp
    rw [hlen, ih u (h ++ [u])]
    have hobj : us.getLastD u = (u :: us).getLastD o :=
      (List.getLastD_cons o u us).symm
    have hhist : (h ++ [u]) ++ us = h ++ u :: us := by simp
    have hstep2 : (((h ++ [u]).length + us.length : Nat) : Int) - 1
        = ((h.length + (u :: us).length : Nat) : Int) - 1 := by
      push_cast [List.length_append, List.length_cons, List.length_nil]
      ring
    rw [hobj, hhist, hstep2]

/-- The editor state after loading a snapshot and applying a run of local
mutations: history is the loaded baseline followed by all the snapshots and
the cursor sits on the last one. -/
theorem editor_after_load_and_edits (loaded : List CanvasObject)
    (us : List (List CanvasObject)) :
    applyLocals us (loadCanvas loaded)
      = { objects := us.getLastD loaded, history := loaded :: us,
          historyStep := (us.length : Int) } := by
  have hinit : initialEditorState
      = { objects := ([] : List CanvasObject),
          history := ([] : List (List CanvasObject)),
          historyStep := ((([] : List (List CanvasObject)).length : Nat) : Int) - 1 } := by
    simp [initialEditorState]
  have hload : loadCanvas loaded
      = { objects := loaded, history := [loaded], historyStep := (0 : Int) } := by
    rw [loadCanvas, hinit, applyLocal_at_top]
    simp
  have h1 : (0 : Int)
      = ((([loaded] : List (List CanvasObject)).length : Nat) : Int) - 1 := by
    simp
  rw [hload, h1, applyLocals_from_top us loaded [loaded]]
  have hhist : ([loaded] : List (List CanvasObject)) ++ us = loaded :: us := by
    simp
  have hstep : ((([loaded] : List (List CanvasObject)).length + us.length : Nat) : Int) - 1
      = (us.length : Int) := by
    push_cast [List.length_singleton]
    ring
  rw [hhist, hstep]

/-- `k` undos from cursor position `j ≥ k` land on position `j - k`, showing
the snapshot stored there. -/
theorem undoN_from (k : Nat) :
    ∀ (j : Nat) (ob : List CanvasObject) (h : List (List CanvasObject)),
    k ≤ j →
    undoN k { objects := ob, history := h, historyStep := (j : Int) }
      = if k = 0 then { objects := ob, history := h, historyStep := (j : Int) }
        else { objects := h.getD (j - k) [], history := h,
               historyStep := ((j - k : Nat) : Int) } := by
  induction k with
  | zero => intro j ob h _; simp [undoN]
  | succ k ih =>
    intro j ob h hk
    have hstep : handleUndo ⟨ob, h, (j : Int)⟩
        = ⟨h.getD (j - 1) [], h, ((j - 1 : Nat) : Int)⟩ := by
      have hpos : (0 : Int) < (j : Int) := by
        exact_mod_cast Nat.lt_of_lt_of_le (Nat.succ_pos k) hk
      have ht : ((j : Int) - 1).toNat = j - 1 := by omega
      have hc : (j : Int) - 1 = ((j - 1 : Nat) : Int) := by omega
      simp [handleUndo, hpos, ht, hc]
    show undoN k (handleUndo _) = _
    rw [hstep, ih (j - 1) _ h (by omega)]
    by_cases hk0 : k = 0
    · subst hk0
      simp
    · rw [if_neg hk0, if_neg (Nat.succ_ne_zero k)]
      have harith : j - 1 - k = j - (k + 1) := by omega
      rw [harith]

/-- `k` redos from cursor position `j` with `j + k` still inside History land
on position `j + k`, showing the snapshot stored there. -/
theorem redoN_from (k : Nat) :
    ∀ (j : Nat) (ob : List CanvasObject) (h : List (List CanvasObject)),
    j + k < h.length →
    redoN k { objects := ob, history := h, historyStep := (j : Int) }
      = if k = 0 then { objects := ob, history := h, historyStep := (j : Int) }
        else { objects := h.getD (j + k) [], history := h,
               historyStep := ((j + k : Nat) : Int) } := by
  induction k with
  | zero => intro j ob h _; simp [redoN]
  | succ k ih =>
    intro j ob h hk
    have hstep : handleRedo ⟨ob, h, (j : Int)⟩
        = ⟨h.getD (j + 1) [], h, ((j + 1 : Nat) : Int)⟩ := by
      have hguard : (j : Int) < (h.length : Int) - 1 := by omega
      have hc : (j : Int) + 1 = ((j + 1 : Nat) : Int) := by omega
      simp only [handleRedo, hc, Int.toNat_natCast]
      rw [if_pos hguard]
    show redoN k (handleRedo _) = _
    rw [hstep, ih (j + 1) _ h (by omega)]
    by_cases hk0 : k = 0
    · subst hk0
      simp
    · rw [if_neg hk0, if_neg (Nat.succ_ne_zero k)]
      have harith : j + 1 + k = j + (k + 1) := by omega
      rw [harith]

/-- Indexing a cons cell at the length of its tail reads the last element. -/
theorem getD_cons_at_tail_length {α : Type} (a d : α) (l : List α) :
    (a :: l).getD l.length d = l.getLastD a := by
  induction l generalizing a with
  | nil => rfl
  | cons b l ih =>
    rw [List.length_cons, List.getD_cons_succ, ih b, List.getLastD_cons]

/-- C4: from a loaded snapshot followed by `N` local mutations, `N` undos
return the Document to the loaded snapshot and `N` redos after that restore
the full pre-undo state; `handleUndo` is a no-op at cursor 0 and `handleRedo`
is a no-op at the last cursor position. -/
theorem undo_redo_roundtrip (loaded : List CanvasObject)
    (us : List (List CanvasObject)) :
    (undoN us.length (applyLocals us (loadCanvas loaded))).objects = loaded ∧
    redoN us.length (undoN us.length (applyLocals us (loadCanvas loaded)))
      = applyLocals us (loadCanvas loaded) ∧
    (∀ t : EditorState, t.historyStep = 0 → handleUndo t = t) ∧
    (∀ t : EditorState, t.historyStep = (t.history.length : Int) - 1 →
      handleRedo t = t) := by
  have hstate := editor_after_load_and_edits loaded us
  have hundo := undoN_from us.length us.length (us.getLastD loaded)
      (loaded :: us) (le_refl _)
  have hfinal : undoN us.length (applyLocals us (loadCanvas loaded))
      = { objects := loaded, history := loaded :: us, historyStep := (0 : Int) } := by
    rw [hstate, hundo]
    by_cases h0 : us.length = 0
    · rw [if_pos h0]
      have hnil : us = [] := List.length_eq_zero.mp h0
      subst hnil
      simp
    · rw [if_neg h0]
      simp
  refine ⟨by rw [hfinal], ?_, ?_, ?_⟩
  · rw [hfinal]
    by_cases h0 : us.length = 0
    · have hnil : us = [] := List.length_eq_zero.mp h0
      subst hnil
      rw [hstate]
      simp [redoN]
    · have hcast : (0 : Int) = ((0 : Nat) : Int) := rfl
      rw [hcast, redoN_from us.length 0 loaded (loaded :: us) (by simp),
        if_neg h0, hstate]
      rw [Nat.zero_add, getD_cons_at_tail_length]
  · intro t ht
    simp [handleUndo, ht]
  · intro t ht
    simp [handleRedo, ht]

/-- C4 witness: one mutation after loading a one-object document; one undo
restores the loaded snapshot, and undo is a no-op at cursor 0. -/
theorem undo_redo_roundtrip_witness :
    (undoN 1 (applyLocals [[]] (loadCanvas [pasteClip]))).objects = [pasteClip] ∧
    handleUndo { objects := [], history := [[]], historyStep := 0 }
      = { objects := [], history := [[]], historyStep := 0 } := by
  have h := undo_redo_roundtrip [pasteClip] [[]]
  exact ⟨h.1, h.2.2.1 { objects := [], history := [[]], historyStep := 0 } rfl⟩

end CreativeCanvas
